import Mathlib

/-!
Shallow embedding of `ampel/plot/utils.py` (Ampel-plots).

The module's numeric values are Python floats; we model them as exact
rationals (`ℚ`).  Every concrete magnitude reached by the theorems below
(small integers, halves) is exactly representable in binary floating point
and the arithmetic performed on it (`+`, `max`, `*` by a dyadic factor) is
exact, so the `ℚ` model agrees with Python float semantics on everything
the theorems state.

String manipulation (`str.replace`, `str.split`, `float(...)`, `str(...)`)
is modelled on `List Char` so that it can be reasoned about by structural
induction; `String` values appear only at the interfaces, mirroring the
Python function signatures.
-/

set_option maxRecDepth 8000

namespace AmpelPlot

/-- The character `'0' + n`, used to render a decimal digit `n < 10`. -/
def digitChar (n : ℕ) : Char := Char.ofNat (48 + n)

/-- Digit extraction loop for rendering a natural number in decimal; the
first argument is the number, the second a structural-recursion fuel
(any fuel above the number itself is enough, see the lemmas below). -/
def natReprAux : ℕ → ℕ → List Char
  | _, 0 => []
  | n, fuel + 1 =>
    if n < 10 then [digitChar n]
    else natReprAux (n / 10) fuel ++ [digitChar (n % 10)]

/-- Decimal digit characters of a natural number, most significant first:
the character list of Python `str(n)`. -/
def natReprChars (n : ℕ) : List Char := natReprAux n (n + 1)

/-- Decimal rendering of an integer (Python `str(n)` for `int` magnitudes). -/
def intReprChars (n : ℤ) : List Char :=
  if n < 0 then '-' :: natReprChars n.natAbs else natReprChars n.natAbs

/-- Value of a list of decimal digit characters; `none` if a character is
not a digit.  The empty list has value `0` (callers reject empty parts
where Python does). -/
def digitsVal : List Char → Option ℕ
  | [] => some 0
  | c :: cs =>
    if c.isDigit then (digitsVal cs).map (fun v => (c.toNat - 48) * 10 ^ cs.length + v)
    else none

/-- Python `s.split('.')` on the character list of `s`: splits on every
occurrence of `'.'`, always returning at least one (possibly empty) part. -/
def splitOnDot : List Char → List (List Char)
  | [] => [[]]
  | c :: cs =>
    if c = '.' then [] :: splitOnDot cs
    else
      match splitOnDot cs with
      | [] => [[c]]
      | p :: ps => (c :: p) :: ps

/-- Python `s.replace("pt", "")`: removes every (non-overlapping,
left-to-right) occurrence of the substring `"pt"`. -/
def replacePt : List Char → List Char
  | 'p' :: 't' :: cs => replacePt cs
  | c :: cs => c :: replacePt cs
  | [] => []

/-- Python `float(s)` on an unsigned body: an optional integer part and an
optional fractional part around a single `'.'`, at least one digit overall.
This is the fragment of the `float()` grammar exercised by dimension
strings (no exponents, no whitespace, no `inf`/`nan`). -/
def pyFloatCore (cs : List Char) : Option ℚ :=
  match splitOnDot cs with
  | [i] =>
    if i = [] then none else (digitsVal i).map (fun n => (n : ℚ))
  | [i, f] =>
    if i = [] ∧ f = [] then none
    else (digitsVal i).bind (fun n =>
      (digitsVal f).map (fun v => (n : ℚ) + (v : ℚ) / 10 ^ f.length))
  | _ => none

/-- Python `float(s)` body: an optional sign followed by the unsigned
number. -/
def pyFloatSigned : List Char → Option ℚ
  | [] => none
  | c :: rest =>
    if c = '-' then (pyFloatCore rest).map Neg.neg
    else if c = '+' then pyFloatCore rest
    else pyFloatCore (c :: rest)

/-- Python `float(s)`. -/
def pyFloat (s : String) : Option ℚ := pyFloatSigned s.data

/-- Python `str(x)` for a float `x`.  Faithful on integer-valued floats,
which render as `"<n>.0"`; these are the only values the theorems below
ever render (their hypotheses force `q.den = 1`).  Non-integer rationals
get a fraction rendering as an explicitly out-of-model fallback. -/
def pyFloatStr (q : ℚ) : String :=
  if q.den = 1 then String.mk (intReprChars q.num ++ ['.', '0'])
  else String.mk (intReprChars q.num ++ '/' :: natReprChars q.den)

/-- Python exceptions surfaced by the module. -/
inductive PyErr
  | valueError (msg : String)
  | keyError (key : String)
  deriving DecidableEq, Repr

/-- Decidable equality of fallible results, used to evaluate the model on
concrete inputs. -/
instance {ε α : Type} [DecidableEq ε] [DecidableEq α] : DecidableEq (Except ε α) := fun a b =>
  match a, b with
  | .error e1, .error e2 =>
    if h : e1 = e2 then .isTrue (by rw [h])
    else .isFalse (fun hc => h (Except.error.inj hc))
  | .error _, .ok _ => .isFalse (fun hc => Except.noConfusion hc)
  | .ok _, .error _ => .isFalse (fun hc => Except.noConfusion hc)
  | .ok a1, .ok a2 =>
    if h : a1 = a2 then .isTrue (by rw [h])
    else .isFalse (fun hc => h (Except.ok.inj hc))

/-- `float(s)` as a fallible operation: raises `ValueError` on a string
that is not a float literal. -/
def pyFloatE (s : String) : Except PyErr ℚ :=
  match pyFloat s with
  | some q => .ok q
  | none => .error (.valueError ("could not convert string to float: " ++ s))

/-- A parsed input SVG document, as the composition code sees it through
`svgutils.transform.fromstring` / `get_size`: the raw `width`/`height`
attribute strings plus an opaque handle to the root drawable element.
Modelled from the spec's Document Model Adapter contract (the backing
`svgutils` library is external to the repository). -/
structure SvgIn where
  width : String
  height : String
  root : ℕ
  deriving DecidableEq, Repr

/-- A drawable appended to a composed figure: a wrapped sub-document root
with an optional `moveto` translation, a scaled sub-document root, or a
line primitive through a list of points. -/
inductive SvgElem
  | sub (root : ℕ) (move : Option (ℚ × ℚ))
  | scaledSub (root : ℕ) (sx sy : ℚ)
  | line (pts : List (ℚ × ℚ))
  deriving DecidableEq, Repr

/-- Whether a drawable is a line primitive (`svgutils.compose.Line`). -/
def SvgElem.isLine : SvgElem → Bool
  | .line _ => true
  | _ => false

/-- A composed output document (`svgutils.transform.SVGFigure`): a mutable
attribute map holding `width`/`height`/`viewBox` plus the appended
children, in z-order.  Modelled from the spec's Document Model Adapter
contract. -/
structure SVGFigure where
  width : Option String
  height : Option String
  viewBox : Option String
  children : List SvgElem
  deriving DecidableEq, Repr

/-- `stack_svg(svg1, svg2, horizontally, separator)` from
`ampel/plot/utils.py`, up to (but not including) final XML serialization:
the returned value is the composed figure whose attributes and children
the byte output serializes.  Inputs are the already-parsed documents
(parsing into width/height strings is the external adapter's job). -/
def stack_svg (svg1 svg2 : SvgIn) (horizontally separator : Bool) :
    Except PyErr SVGFigure := do
  let w1 ← pyFloatE (String.mk (replacePt svg1.width.data))
  let h1 ← pyFloatE (String.mk (replacePt svg1.height.data))
  let w2 ← pyFloatE (String.mk (replacePt svg2.width.data))
  let h2 ← pyFloatE (String.mk (replacePt svg2.height.data))
  let hAttr : String :=
    if horizontally then (if h1 > h2 then svg1.height else svg2.height)
    else pyFloatStr (h1 + h2) ++ "pt"
  let wAttr : String :=
    if horizontally then pyFloatStr (w1 + w2) ++ "pt"
    else (if w1 > w2 then svg1.width else svg2.width)
  let el2 : SvgElem :=
    if horizontally then .sub svg2.root (some (w1, 0))
    else .sub svg2.root (some (0, h1))
  let sepElems : List SvgElem :=
    if separator then
      if horizontally then [.line [(w1, 0), (w1, if h1 > h2 then h1 else h2)]]
      else [.line [(0, h1), ((if w1 > w2 then w1 else w2), h1)]]
    else []
  return { width := some wAttr
           height := some hAttr
           viewBox := some ("0 0 " ++ wAttr ++ " " ++ hAttr)
           children := [SvgElem.sub svg1.root none, el2] ++ sepElems }

/-- `rescale(svg, scale)` from `ampel/plot/utils.py`, up to final
serialization: parses the declared dimensions with the
`float(s.split('.')[0])` policy, builds a new figure of the scaled size
(`SVGFigure(w*scale, h*scale)` stringifies the magnitudes), and appends
the original root scaled by `(scale, scale)`. -/
def rescale (doc : SvgIn) (scale : ℚ) : Except PyErr SVGFigure := do
  let original_width ← pyFloatE (String.mk ((splitOnDot doc.width.data).headD []))
  let original_height ← pyFloatE (String.mk ((splitOnDot doc.height.data).headD []))
  return { width := some (pyFloatStr (original_width * scale))
           height := some (pyFloatStr (original_height * scale))
           viewBox := none
           children := [SvgElem.scaledSub doc.root scale scale] }

/-- `rescale(svg, k)` followed by `rescale(result, 1/k)`: the serialized
output of the first call is re-parsed, so the second call sees the first
call's declared width/height strings as its document dimensions. -/
def rescale_roundtrip (doc : SvgIn) (k : ℚ) : Except PyErr SVGFigure := do
  let mid ← rescale doc k
  rescale { width := mid.width.getD "", height := mid.height.getD "", root := doc.root } (1 / k)

/-- An SVG payload: a plain string or a compressed byte sequence
(`bytes` modelled as `List ℕ`). -/
abbrev SvgPayload := String ⊕ List ℕ

/-- The `SVGRecord` mapping produced by `mplfig_to_svg_dict`: key `name`
is always present; `tag`, `title`, `svg` and `svg_str` are present when
their `Option` is `some`. -/
structure SVGRecord where
  name : String
  tag : Option (List String)
  title : Option String
  svg : Option SvgPayload
  svg_str : Option String
  deriving DecidableEq, Repr

/-- UTF-8 bytes of a string (Python `s.encode('utf8')`). -/
def utf8Bytes (s : String) : List ℕ := s.toUTF8.toList.map UInt8.toNat

/-- `mplfig_to_svg_dict` from `ampel/plot/utils.py`, from the point where
the rendered SVG text is fixed: figure rendering (`mpl_fig.savefig`) is
the external Renderer collaborator, so the rendered text `svgText` is an
input here; the Compression collaborator `ampel.util.compression.compress`
is the parameter `comp`.  Python's truthiness tests `if tags:` / `if
title:` make an empty list / empty string behave like absence. -/
def mplfig_to_svg_dict (comp : List ℕ → String → List ℕ) (svgText : String)
    (file_name : String) (title : Option String) (tags : Option (List String))
    (compress : ℤ) : SVGRecord :=
  let ret : SVGRecord :=
    { name := file_name, tag := none, title := none, svg := none, svg_str := none }
  let ret := match tags with
    | some ts => if ts = [] then ret else { ret with tag := some ts }
    | none => ret
  let ret := match title with
    | some t => if t = "" then ret else { ret with title := some t }
    | none => ret
  if compress = 0 then { ret with svg := some (.inl svgText) }
  else
    let ret := { ret with svg := some (.inr (comp (utf8Bytes svgText) file_name)) }
    if compress = 2 then { ret with svg_str := some svgText } else ret

/-- A dynamically-typed Python value, as `decompress_svg_dict` can receive
one: a dict (here, an `SVGRecord`-shaped mapping) or a non-mapping value. -/
inductive PyVal
  | dict (r : SVGRecord)
  | str (s : String)
  | num (n : ℤ)
  | pyNone
  deriving DecidableEq, Repr

/-- `decompress_svg_dict` from `ampel/plot/utils.py`: rejects non-dict
arguments with `ValueError`, reads `svg_dict['svg']` (a `KeyError` if the
key is absent), and replaces a bytes payload by its decompressed string.
The Compression collaborator `decompress_str` is the parameter `dec`. -/
def decompress_svg_dict (dec : List ℕ → String) : PyVal → Except PyErr PyVal
  | .dict r =>
    match r.svg with
    | none => .error (.keyError "svg")
    | some (.inr b) => .ok (.dict { r with svg := some (.inl (dec b)) })
    | some (.inl _) => .ok (.dict r)
  | _ => .error (.valueError "Parameter svg_dict must be an instance of dict")

/-- The base64 alphabet (RFC 4648). -/
def b64Alphabet : List Char :=
  "ABCDEFGHIJKLMNOPQRSTUVWXYZabcdefghijklmnopqrstuvwxyz0123456789+/".data

/-- The base64 digit for a 6-bit value. -/
def b64char (n : ℕ) : Char := b64Alphabet.getD n '='

/-- Standard base64 encoding of a byte sequence with `=` padding
(Python `base64.b64encode`). -/
def b64encodeChars : List ℕ → List Char
  | a :: b :: c :: rest =>
    b64char (a / 4) :: b64char (a % 4 * 16 + b / 16) ::
      b64char (b % 16 * 4 + c / 64) :: b64char (c % 64) :: b64encodeChars rest
  | [a, b] => [b64char (a / 4), b64char (a % 4 * 16 + b / 16), b64char (b % 16 * 4), '=']
  | [a] => [b64char (a / 4), b64char (a % 4 * 16), '=', '=']
  | [] => []

/-- Base64 encoding as a string. -/
def b64encode (bs : List ℕ) : String := String.mk (b64encodeChars bs)

/-- `to_png(content, dpi)` from `ampel/plot/utils.py`: rasterizes the SVG
text (the external `cairosvg.svg2png` collaborator is the parameter
`raster`; `IPython.display.Image(...).data` returns the PNG bytes
unchanged) and wraps the base64-encoded bytes in an `<img>` data URI. -/
def to_png (raster : String → ℤ → Except PyErr (List ℕ)) (content : String)
    (dpi : ℤ) : Except PyErr String := do
  let png ← raster content dpi
  return "<img src=\"data:image/png;base64," ++ b64encode png ++ "\">"

/-! ### Lemmas about the decimal rendering / parsing model -/

lemma digitChar_isDigit {n : ℕ} (h : n < 10) : (digitChar n).isDigit = true := by
  interval_cases n <;> decide

lemma digitChar_toNat {n : ℕ} (h : n < 10) : (digitChar n).toNat = 48 + n := by
  interval_cases n <;> decide

lemma digitsVal_append_digit (xs : List Char) (c : Char) (hc : c.isDigit = true) :
    digitsVal (xs ++ [c]) = (digitsVal xs).map (fun v => v * 10 + (c.toNat - 48)) := by
  induction xs with
  | nil => simp [digitsVal, hc]
  | cons x xs ih =>
    by_cases hx : x.isDigit
    · cases hxs : digitsVal xs with
      | none =>
        have hnone : digitsVal (xs ++ [c]) = none := by rw [ih, hxs]; rfl
        simp [digitsVal, hx, hxs, hnone, List.append_eq]
      | some v =>
        have hsome : digitsVal (xs ++ [c]) = some (v * 10 + (c.toNat - 48)) := by
          rw [ih, hxs]; rfl
        simp only [List.cons_append, List.append_eq, digitsVal, hx, if_true,
          hsome, hxs, Option.map_some', Option.some.injEq, List.length_append,
          List.length_cons, List.length_nil, Nat.zero_add]
        ring
    · simp [digitsVal, hx]

lemma natReprAux_digits :
    ∀ fuel n, n < fuel → ∀ c ∈ natReprAux n fuel, c.isDigit = true := by
  intro fuel
  induction fuel with
  | zero => omega
  | succ fuel ih =>
    intro n hn
    rw [natReprAux]
    split
    · intro c hc
      rw [List.mem_singleton] at hc
      subst hc
      exact digitChar_isDigit (by omega)
    · intro c hc
      rcases List.mem_append.mp hc with h | h
      · exact ih (n / 10) (by omega) c h
      · rw [List.mem_singleton] at h
        subst h
        exact digitChar_isDigit (Nat.mod_lt _ (by omega))

lemma natReprAux_ne_nil : ∀ fuel n, n < fuel → natReprAux n fuel ≠ [] := by
  intro fuel
  induction fuel with
  | zero => omega
  | succ fuel _ =>
    intro n _
    rw [natReprAux]
    split
    · simp
    · simp

lemma digitsVal_natReprAux :
    ∀ fuel n, n < fuel → digitsVal (natReprAux n fuel) = some n := by
  intro fuel
  induction fuel with
  | zero => omega
  | succ fuel ih =>
    intro n hn
    rw [natReprAux]
    split
    · rename_i h
      simp [digitsVal, digitChar_isDigit h, digitChar_toNat h]
    · rename_i h
      rw [digitsVal_append_digit _ _ (digitChar_isDigit (Nat.mod_lt _ (by omega)))]
      rw [ih (n / 10) (by omega)]
      rw [digitChar_toNat (Nat.mod_lt _ (by omega))]
      simp only [Option.map_some', Option.some.injEq]
      omega

lemma natReprChars_digits (n : ℕ) : ∀ c ∈ natReprChars n, c.isDigit = true :=
  natReprAux_digits (n + 1) n (by omega)

lemma natReprChars_ne_nil (n : ℕ) : natReprChars n ≠ [] :=
  natReprAux_ne_nil (n + 1) n (by omega)

lemma digitsVal_natReprChars (n : ℕ) : digitsVal (natReprChars n) = some n :=
  digitsVal_natReprAux (n + 1) n (by omega)

lemma dot_not_mem_natReprChars (n : ℕ) : '.' ∉ natReprChars n := by
  intro h
  have := natReprChars_digits n '.' h
  simp at this

lemma splitOnDot_ne_nil (l : List Char) : splitOnDot l ≠ [] := by
  induction l with
  | nil => simp [splitOnDot]
  | cons c cs ih =>
    rw [splitOnDot]
    split
    · simp
    · cases h : splitOnDot cs with
      | nil => exact absurd h ih
      | cons p ps => simp

lemma splitOnDot_no_dot {l : List Char} (h : '.' ∉ l) : splitOnDot l = [l] := by
  induction l with
  | nil => rfl
  | cons c cs ih =>
    have hc : ¬ c = '.' := fun hc => h (hc ▸ List.mem_cons_self c cs)
    have hcs : '.' ∉ cs := fun hm => h (List.mem_cons_of_mem c hm)
    rw [splitOnDot, if_neg hc, ih hcs]

lemma splitOnDot_append_dot {xs : List Char} (h : '.' ∉ xs) (ys : List Char) :
    splitOnDot (xs ++ '.' :: ys) = xs :: splitOnDot ys := by
  induction xs with
  | nil => simp [splitOnDot]
  | cons c cs ih =>
    have hc : ¬ c = '.' := fun hc => h (hc ▸ List.mem_cons_self c cs)
    have hcs : '.' ∉ cs := fun hm => h (List.mem_cons_of_mem c hm)
    rw [List.cons_append, splitOnDot, if_neg hc, ih hcs]

lemma pyFloatCore_no_dot {l : List Char} (h : '.' ∉ l) (hne : l ≠ []) :
    pyFloatCore l = (digitsVal l).map (fun n => (n : ℚ)) := by
  unfold pyFloatCore
  rw [splitOnDot_no_dot h]
  show (if l = [] then none else (digitsVal l).map (fun n => (n : ℚ)))
      = (digitsVal l).map (fun n => (n : ℚ))
  rw [if_neg hne]

lemma pyFloatSigned_digits {l : List Char} (hne : l ≠ [])
    (hdig : ∀ c ∈ l, c.isDigit = true) : pyFloatSigned l = pyFloatCore l := by
  cases l with
  | nil => exact absurd rfl hne
  | cons c cs =>
    have hcdig := hdig c (List.mem_cons_self c cs)
    have hcm : ¬ c = '-' := by rintro rfl; exact absurd hcdig (by decide)
    have hcp : ¬ c = '+' := by rintro rfl; exact absurd hcdig (by decide)
    rw [pyFloatSigned, if_neg hcm, if_neg hcp]

lemma pyFloat_natReprChars (n : ℕ) :
    pyFloat (String.mk (natReprChars n)) = some (n : ℚ) := by
  have h1 : pyFloat (String.mk (natReprChars n)) = pyFloatSigned (natReprChars n) := rfl
  rw [h1, pyFloatSigned_digits (natReprChars_ne_nil n) (natReprChars_digits n),
    pyFloatCore_no_dot (dot_not_mem_natReprChars n) (natReprChars_ne_nil n),
    digitsVal_natReprChars]
  rfl

lemma rat_natAbs_cast {q : ℚ} (hden : q.den = 1) (hpos : 0 ≤ q) :
    ((q.num.natAbs : ℕ) : ℚ) = q := by
  have hq : (q.num : ℚ) = q := by
    have h := Rat.num_div_den q
    rw [hden] at h
    simpa using h
  have hnum : 0 ≤ q.num := Rat.num_nonneg.mpr hpos
  calc ((q.num.natAbs : ℕ) : ℚ) = ((q.num.natAbs : ℤ) : ℚ) :=
        (Int.cast_natCast _).symm
    _ = (q.num : ℚ) := by rw [Int.natAbs_of_nonneg hnum]
    _ = q := hq

lemma parse_head_pyFloatStr {q : ℚ} (hden : q.den = 1) (hpos : 0 ≤ q) :
    pyFloat (String.mk ((splitOnDot (pyFloatStr q).data).headD [])) = some q := by
  have hnum : 0 ≤ q.num := Rat.num_nonneg.mpr hpos
  have hrepr : (pyFloatStr q).data = natReprChars q.num.natAbs ++ '.' :: ['0'] := by
    rw [pyFloatStr, if_pos hden, intReprChars, if_neg (by omega)]
  rw [hrepr, splitOnDot_append_dot (dot_not_mem_natReprChars _)]
  rw [List.headD_cons, pyFloat_natReprChars, rat_natAbs_cast hden hpos]

lemma max_ite (a b : ℚ) : (if a > b then a else b) = max a b := by
  by_cases h : a > b
  · rw [if_pos h, max_eq_left h.le]
  · rw [if_neg h, max_eq_right (not_lt.mp h)]

lemma stack_svg_eval (s1 s2 : SvgIn) (ho sep : Bool) (w1 h1 w2 h2 : ℚ)
    (hw1 : pyFloat (String.mk (replacePt s1.width.data)) = some w1)
    (hh1 : pyFloat (String.mk (replacePt s1.height.data)) = some h1)
    (hw2 : pyFloat (String.mk (replacePt s2.width.data)) = some w2)
    (hh2 : pyFloat (String.mk (replacePt s2.height.data)) = some h2) :
    stack_svg s1 s2 ho sep = .ok
      { width := some (if ho then pyFloatStr (w1 + w2) ++ "pt"
                       else if w1 > w2 then s1.width else s2.width)
        height := some (if ho then (if h1 > h2 then s1.height else s2.height)
                        else pyFloatStr (h1 + h2) ++ "pt")
        viewBox := some ("0 0 "
          ++ (if ho then pyFloatStr (w1 + w2) ++ "pt"
              else if w1 > w2 then s1.width else s2.width)
          ++ " "
          ++ (if ho then (if h1 > h2 then s1.height else s2.height)
              else pyFloatStr (h1 + h2) ++ "pt"))
        children := [SvgElem.sub s1.root none,
            if ho then SvgElem.sub s2.root (some (w1, 0))
            else SvgElem.sub s2.root (some (0, h1))]
          ++ (if sep then
                (if ho then [SvgElem.line [(w1, 0), (w1, if h1 > h2 then h1 else h2)]]
                 else [SvgElem.line [(0, h1), ((if w1 > w2 then w1 else w2), h1)]])
              else []) } := by
  simp only [stack_svg, pyFloatE, hw1, hh1, hw2, hh2, bind, Except.bind, pure,
    Except.pure]

lemma pyFloatE_ok {s : String} {w : ℚ} : pyFloatE s = .ok w ↔ pyFloat s = some w := by
  unfold pyFloatE
  cases pyFloat s <;> simp

/-! ### Claim theorems -/

/-- C1 (amended): for two parseable documents, horizontal stacking declares
width `str(w1+w2) ++ "pt"` (numerically `w1+w2`) and height the verbatim
dimension string of the taller input (numerically `max h1 h2`); vertical
stacking declares height `str(h1+h2) ++ "pt"` (numerically `h1+h2`) and
width the verbatim string of the wider input (numerically `max w1 w2`).
The summed axis carries the trailing `.0` of Python float rendering, so
the concrete scenario declares `"110.0pt"`/`"180.0pt"`, not
`"110pt"`/`"180pt"` as the claim states (see the counterexample). -/
theorem stack_svg_declared_dimensions (s1 s2 : SvgIn) (sep : Bool) (w1 h1 w2 h2 : ℚ)
    (hw1 : pyFloat (String.mk (replacePt s1.width.data)) = some w1)
    (hh1 : pyFloat (String.mk (replacePt s1.height.data)) = some h1)
    (hw2 : pyFloat (String.mk (replacePt s2.width.data)) = some w2)
    (hh2 : pyFloat (String.mk (replacePt s2.height.data)) = some h2) :
    ((stack_svg s1 s2 true sep).map SVGFigure.width
        = .ok (some (pyFloatStr (w1 + w2) ++ "pt"))
      ∧ (stack_svg s1 s2 true sep).map SVGFigure.height
        = .ok (some (if h1 > h2 then s1.height else s2.height))
      ∧ (stack_svg s1 s2 true sep).map
          (fun f => pyFloat (String.mk (replacePt (f.height.getD "").data)))
        = .ok (some (max h1 h2)))
    ∧ ((stack_svg s1 s2 false sep).map SVGFigure.height
        = .ok (some (pyFloatStr (h1 + h2) ++ "pt"))
      ∧ (stack_svg s1 s2 false sep).map SVGFigure.width
        = .ok (some (if w1 > w2 then s1.width else s2.width))
      ∧ (stack_svg s1 s2 false sep).map
          (fun f => pyFloat (String.mk (replacePt (f.width.getD "").data)))
        = .ok (some (max w1 w2))) := by
  rw [stack_svg_eval s1 s2 true sep w1 h1 w2 h2 hw1 hh1 hw2 hh2,
    stack_svg_eval s1 s2 false sep w1 h1 w2 h2 hw1 hh1 hw2 hh2]
  refine ⟨⟨by simp [Except.map], by simp [Except.map], ?_⟩,
    by simp [Except.map], by simp [Except.map], ?_⟩
  · by_cases hc : h1 > h2
    · simp [Except.map, hc, hh1, max_eq_left hc.le]
    · simp [Except.map, hc, hh2, max_eq_right (not_lt.mp hc)]
  · by_cases hc : w1 > w2
    · simp [Except.map, hc, hw1, max_eq_left hc.le]
    · simp [Except.map, hc, hw2, max_eq_right (not_lt.mp hc)]

/-- Witness for C1's theorem at the spec's concrete scenario
(documents declared 100pt by 50pt and 80pt by 60pt). -/
theorem stack_svg_declared_dimensions_witness :
    ((stack_svg ⟨"100pt", "50pt", 1⟩ ⟨"80pt", "60pt", 2⟩ true false).map SVGFigure.width
        = .ok (some (pyFloatStr ((100 : ℚ) + 80) ++ "pt"))
      ∧ (stack_svg ⟨"100pt", "50pt", 1⟩ ⟨"80pt", "60pt", 2⟩ false false).map SVGFigure.height
        = .ok (some (pyFloatStr ((50 : ℚ) + 60) ++ "pt")))
    ∧ pyFloatStr ((100 : ℚ) + 80) ++ "pt" = "180.0pt"
    ∧ pyFloatStr ((50 : ℚ) + 60) ++ "pt" = "110.0pt" := by
  have h := stack_svg_declared_dimensions ⟨"100pt", "50pt", 1⟩ ⟨"80pt", "60pt", 2⟩ false
    100 50 80 60 (of_decide_eq_true (by with_unfolding_all rfl))
    (of_decide_eq_true (by with_unfolding_all rfl))
    (of_decide_eq_true (by with_unfolding_all rfl))
    (of_decide_eq_true (by with_unfolding_all rfl))
  exact ⟨⟨h.1.1, h.2.1⟩, of_decide_eq_true (by with_unfolding_all rfl),
    of_decide_eq_true (by with_unfolding_all rfl)⟩

/-- Counterexample to C1 as stated: at the claim's own concrete inputs the
summed dimension strings are `"110.0pt"` and `"180.0pt"` (Python
`str(float)` keeps a trailing `.0`), not the claimed `"110pt"` and
`"180pt"`. -/
theorem stack_svg_concrete_strings_differ :
    (stack_svg ⟨"100pt", "50pt", 1⟩ ⟨"80pt", "60pt", 2⟩ false false).map SVGFigure.height
      = .ok (some "110.0pt")
    ∧ (stack_svg ⟨"100pt", "50pt", 1⟩ ⟨"80pt", "60pt", 2⟩ true false).map SVGFigure.width
      = .ok (some "180.0pt")
    ∧ "110.0pt" ≠ "110pt" ∧ "180.0pt" ≠ "180pt" :=
  ⟨of_decide_eq_true (by with_unfolding_all rfl),
    of_decide_eq_true (by with_unfolding_all rfl), by decide, by decide⟩

/-- C2 (amended): the composed document's viewBox is the string
`"0 0 W H"` built from the verbatim width and height attribute values —
including their unit suffixes — not from unit-stripped numbers. -/
theorem stack_svg_viewBox (s1 s2 : SvgIn) (ho sep : Bool) (fig : SVGFigure)
    (h : stack_svg s1 s2 ho sep = .ok fig) :
    fig.viewBox = some ("0 0 " ++ fig.width.getD "" ++ " " ++ fig.height.getD "") := by
  rcases hE1 : pyFloatE (String.mk (replacePt s1.width.data)) with e | w1
  · simp [stack_svg, hE1, bind, Except.bind] at h
  rcases hE2 : pyFloatE (String.mk (replacePt s1.height.data)) with e | h1
  · simp [stack_svg, hE1, hE2, bind, Except.bind] at h
  rcases hE3 : pyFloatE (String.mk (replacePt s2.width.data)) with e | w2
  · simp [stack_svg, hE1, hE2, hE3, bind, Except.bind] at h
  rcases hE4 : pyFloatE (String.mk (replacePt s2.height.data)) with e | h2
  · simp [stack_svg, hE1, hE2, hE3, hE4, bind, Except.bind] at h
  rw [stack_svg_eval s1 s2 ho sep w1 h1 w2 h2 (pyFloatE_ok.mp hE1)
    (pyFloatE_ok.mp hE2) (pyFloatE_ok.mp hE3) (pyFloatE_ok.mp hE4)] at h
  injection h with h
  subst h
  rfl

/-- Witness for C2's theorem on the concrete vertical stack of the spec's
scenario documents. -/
theorem stack_svg_viewBox_witness :
    (SVGFigure.mk (some "100pt") (some "110.0pt") (some "0 0 100pt 110.0pt")
        [SvgElem.sub 1 none, SvgElem.sub 2 (some (0, 50))]).viewBox
      = some ("0 0 "
        ++ (SVGFigure.mk (some "100pt") (some "110.0pt") (some "0 0 100pt 110.0pt")
            [SvgElem.sub 1 none, SvgElem.sub 2 (some (0, 50))]).width.getD ""
        ++ " "
        ++ (SVGFigure.mk (some "100pt") (some "110.0pt") (some "0 0 100pt 110.0pt")
            [SvgElem.sub 1 none, SvgElem.sub 2 (some (0, 50))]).height.getD "") :=
  stack_svg_viewBox ⟨"100pt", "50pt", 1⟩ ⟨"80pt", "60pt", 2⟩ false false _
    (of_decide_eq_true (by with_unfolding_all rfl))

/-- Counterexample to C2 as stated: the viewBox produced for the spec's
concrete scenario is `"0 0 100pt 110.0pt"` — it reuses the unit-suffixed
attribute strings, so the `"pt"` markers are not stripped. -/
theorem stack_svg_viewBox_keeps_units :
    (stack_svg ⟨"100pt", "50pt", 1⟩ ⟨"80pt", "60pt", 2⟩ false false).map SVGFigure.viewBox
      = .ok (some "0 0 100pt 110.0pt")
    ∧ "0 0 100pt 110.0pt" ≠ "0 0 100 110"
    ∧ "pt".data <:+: "0 0 100pt 110.0pt".data :=
  ⟨of_decide_eq_true (by with_unfolding_all rfl), by decide, by decide⟩

/-- C3: stacking with separator=False appends no line primitive; with
separator=True it appends exactly one — for horizontal layout a vertical
line at x=w1 spanning 0..max(h1,h2), for vertical layout a horizontal
line at y=h1 spanning 0..max(w1,w2). -/
theorem stack_svg_separator_lines (s1 s2 : SvgIn) (ho : Bool) (w1 h1 w2 h2 : ℚ)
    (hw1 : pyFloat (String.mk (replacePt s1.width.data)) = some w1)
    (hh1 : pyFloat (String.mk (replacePt s1.height.data)) = some h1)
    (hw2 : pyFloat (String.mk (replacePt s2.width.data)) = some w2)
    (hh2 : pyFloat (String.mk (replacePt s2.height.data)) = some h2) :
    (stack_svg s1 s2 ho false).map (fun f => f.children.filter SvgElem.isLine) = .ok []
    ∧ (stack_svg s1 s2 ho true).map (fun f => f.children.filter SvgElem.isLine)
      = .ok [if ho then SvgElem.line [(w1, 0), (w1, max h1 h2)]
             else SvgElem.line [(0, h1), (max w1 w2, h1)]] := by
  rw [stack_svg_eval s1 s2 ho false w1 h1 w2 h2 hw1 hh1 hw2 hh2,
    stack_svg_eval s1 s2 ho true w1 h1 w2 h2 hw1 hh1 hw2 hh2]
  constructor
  · cases ho <;> simp [Except.map, SvgElem.isLine]
  · cases ho <;> simp [Except.map, SvgElem.isLine, max_ite]

/-- Witness for C3's theorem at the spec's concrete scenario, horizontal
orientation. -/
theorem stack_svg_separator_lines_witness :
    (stack_svg ⟨"100pt", "50pt", 1⟩ ⟨"80pt", "60pt", 2⟩ true false).map
        (fun f => f.children.filter SvgElem.isLine) = .ok []
    ∧ (stack_svg ⟨"100pt", "50pt", 1⟩ ⟨"80pt", "60pt", 2⟩ true true).map
        (fun f => f.children.filter SvgElem.isLine)
      = .ok [SvgElem.line [((100 : ℚ), 0), (100, max (50 : ℚ) 60)]] := by
  have h := stack_svg_separator_lines ⟨"100pt", "50pt", 1⟩ ⟨"80pt", "60pt", 2⟩ true
    100 50 80 60 (of_decide_eq_true (by with_unfolding_all rfl))
    (of_decide_eq_true (by with_unfolding_all rfl))
    (of_decide_eq_true (by with_unfolding_all rfl))
    (of_decide_eq_true (by with_unfolding_all rfl))
  exact ⟨h.1, h.2⟩

/-- C4: the unit-parsing policy of rescale is broken for the very format
the code's own comment names.  On a document declared "600px" by "600px"
(the comment's example), rescale raises ValueError instead of preserving
the size, because float("600px".split('.')[0]) is float("600px"); and on
"432.5px" it truncates the magnitude to 432.0 instead of preserving
432.5. -/
theorem rescale_unit_parsing_bug :
    rescale ⟨"600px", "600px", 1⟩ 1
      = .error (.valueError "could not convert string to float: 600px")
    ∧ (rescale ⟨"432.5px", "432.5px", 1⟩ 1).map SVGFigure.width = .ok (some "432.0")
    ∧ pyFloat "432.5" = some (865 / 2)
    ∧ (432 : ℚ) ≠ 865 / 2 :=
  ⟨of_decide_eq_true (by with_unfolding_all rfl),
    of_decide_eq_true (by with_unfolding_all rfl),
    of_decide_eq_true (by with_unfolding_all rfl),
    of_decide_eq_true (by with_unfolding_all rfl)⟩

/-- C5 (amended): rescale by k followed by rescale by 1/k restores the
truncated original size — the float of the part of each dimension string
before its first '.' — provided the scaled magnitudes are integers (so
the intermediate document's declared strings re-parse exactly); the
fractional part of the original declared size is lost, not restored (see
the counterexample). -/
theorem rescale_roundtrip_restores (doc : SvgIn) (k w h : ℚ) (hk : k ≠ 0)
    (hw : pyFloat (String.mk ((splitOnDot doc.width.data).headD [])) = some w)
    (hh : pyFloat (String.mk ((splitOnDot doc.height.data).headD [])) = some h)
    (hwd : (w * k).den = 1) (hwp : 0 ≤ w * k)
    (hhd : (h * k).den = 1) (hhp : 0 ≤ h * k) :
    rescale_roundtrip doc k = .ok
      { width := some (pyFloatStr w), height := some (pyFloatStr h),
        viewBox := none, children := [SvgElem.scaledSub doc.root (1 / k) (1 / k)] } := by
  have h1 : rescale doc k = .ok
      { width := some (pyFloatStr (w * k)), height := some (pyFloatStr (h * k)),
        viewBox := none, children := [SvgElem.scaledSub doc.root k k] } := by
    simp only [rescale, pyFloatE, hw, hh, bind, Except.bind, pure, Except.pure]
  have h2 : pyFloat (String.mk ((splitOnDot (pyFloatStr (w * k)).data).headD []))
      = some (w * k) := parse_head_pyFloatStr hwd hwp
  have h3 : pyFloat (String.mk ((splitOnDot (pyFloatStr (h * k)).data).headD []))
      = some (h * k) := parse_head_pyFloatStr hhd hhp
  have hw' : w * k * (1 / k) = w := by field_simp
  have hh' : h * k * (1 / k) = h := by field_simp
  have h4 : rescale ⟨pyFloatStr (w * k), pyFloatStr (h * k), doc.root⟩ (1 / k)
      = .ok { width := some (pyFloatStr w), height := some (pyFloatStr h),
              viewBox := none,
              children := [SvgElem.scaledSub doc.root (1 / k) (1 / k)] } := by
    simp only [rescale, pyFloatE, h2, h3, bind, Except.bind, pure, Except.pure,
      hw', hh']
  have hbind : rescale_roundtrip doc k
      = (rescale doc k).bind (fun mid =>
          rescale { width := mid.width.getD "", height := mid.height.getD "",
                    root := doc.root } (1 / k)) := rfl
  calc rescale_roundtrip doc k
      = rescale ⟨pyFloatStr (w * k), pyFloatStr (h * k), doc.root⟩ (1 / k) := by
        rw [hbind, h1]
        rfl
    _ = .ok { width := some (pyFloatStr w), height := some (pyFloatStr h),
              viewBox := none,
              children := [SvgElem.scaledSub doc.root (1 / k) (1 / k)] } := h4

/-- Witness for C5's theorem: a 400.0px square document rescaled by 2 and
then by 1/2 declares 400.0 by 400.0 again. -/
theorem rescale_roundtrip_restores_witness :
    rescale_roundtrip ⟨"400.0px", "400.0px", 3⟩ 2 = .ok
      { width := some (pyFloatStr 400), height := some (pyFloatStr 400),
        viewBox := none, children := [SvgElem.scaledSub 3 (1 / 2) (1 / 2)] } :=
  rescale_roundtrip_restores ⟨"400.0px", "400.0px", 3⟩ 2 400 400 (by norm_num)
    (of_decide_eq_true (by with_unfolding_all rfl))
    (of_decide_eq_true (by with_unfolding_all rfl))
    (of_decide_eq_true (by with_unfolding_all rfl)) (by norm_num)
    (of_decide_eq_true (by with_unfolding_all rfl)) (by norm_num)

/-- Counterexample to C5 as stated: a document declared "432.5px" square,
rescaled by 2 and then by 1/2, comes back declaring width 432.0 - off by
0.5 from the original 432.5, far beyond floating-point rounding, because
the split-on-'.' parse truncates the fractional part. -/
theorem rescale_roundtrip_truncates :
    (rescale_roundtrip ⟨"432.5px", "432.5px", 1⟩ 2).map SVGFigure.width
      = .ok (some "432.0")
    ∧ pyFloat "432.0" = some 432
    ∧ pyFloat "432.5" = some (865 / 2)
    ∧ (432 : ℚ) ≠ 865 / 2 :=
  ⟨of_decide_eq_true (by with_unfolding_all rfl),
    of_decide_eq_true (by with_unfolding_all rfl),
    of_decide_eq_true (by with_unfolding_all rfl),
    of_decide_eq_true (by with_unfolding_all rfl)⟩

/-- C6: the three documented compression modes.  Mode 0 stores the raw
SVG string under svg; mode 1 stores compressed bytes and no svg_str key;
mode 2 stores compressed bytes plus the original text under svg_str. -/
theorem mplfig_to_svg_dict_modes (comp : List ℕ → String → List ℕ)
    (svgText file_name : String) (title : Option String) (tags : Option (List String)) :
    (mplfig_to_svg_dict comp svgText file_name title tags 0).svg = some (.inl svgText)
    ∧ (mplfig_to_svg_dict comp svgText file_name title tags 1).svg
        = some (.inr (comp (utf8Bytes svgText) file_name))
    ∧ (mplfig_to_svg_dict comp svgText file_name title tags 1).svg_str = none
    ∧ (mplfig_to_svg_dict comp svgText file_name title tags 2).svg
        = some (.inr (comp (utf8Bytes svgText) file_name))
    ∧ (mplfig_to_svg_dict comp svgText file_name title tags 2).svg_str = some svgText := by
  rcases tags with _ | ts <;> rcases title with _ | t <;>
    simp only [mplfig_to_svg_dict] <;> split_ifs <;> simp_all

/-- C10: any nonzero compress value - including unrecognized ones such as
3 or -1 - is accepted and compresses: svg holds compressed bytes, and
svg_str is added exactly when compress equals 2, so every unrecognized
mode behaves like mode 1. -/
theorem mplfig_to_svg_dict_nonzero_compress (comp : List ℕ → String → List ℕ)
    (svgText file_name : String) (title : Option String)
    (tags : Option (List String)) (c : ℤ) (hc : c ≠ 0) :
    (mplfig_to_svg_dict comp svgText file_name title tags c).svg
        = some (.inr (comp (utf8Bytes svgText) file_name))
    ∧ ((mplfig_to_svg_dict comp svgText file_name title tags c).svg_str
        = some svgText ↔ c = 2) := by
  rcases tags with _ | ts <;> rcases title with _ | t <;>
    simp only [mplfig_to_svg_dict] <;> split_ifs <;> simp_all

/-- Witness for C10's theorem at the unrecognized compress value 3. -/
theorem mplfig_to_svg_dict_nonzero_compress_witness :
    ((3 : ℤ) ≠ 0)
    ∧ ((mplfig_to_svg_dict (fun _ _ => [0]) "<svg/>" "fig.svg" none none 3).svg
        = some (.inr ((fun _ _ => [0]) (utf8Bytes "<svg/>") "fig.svg"))
      ∧ ((mplfig_to_svg_dict (fun _ _ => [0]) "<svg/>" "fig.svg" none none 3).svg_str
          = some "<svg/>" ↔ (3 : ℤ) = 2)) :=
  ⟨by decide, mplfig_to_svg_dict_nonzero_compress (fun _ _ => [0]) "<svg/>" "fig.svg"
    none none 3 (by decide)⟩

/-- C7: decompress_svg_dict is idempotent on records - a second
application is the identity on the result of the first - and is a no-op
on a record whose svg value is already a string. -/
theorem decompress_svg_dict_idempotent (dec : List ℕ → String) (r : SVGRecord) :
    (decompress_svg_dict dec (.dict r)).bind (decompress_svg_dict dec)
      = decompress_svg_dict dec (.dict r)
    ∧ ∀ s, r.svg = some (.inl s) → decompress_svg_dict dec (.dict r) = .ok (.dict r) := by
  constructor
  · rcases hr : r.svg with _ | ⟨s | b⟩
    · simp [decompress_svg_dict, hr, Except.bind]
    · simp [decompress_svg_dict, hr, Except.bind]
    · simp [decompress_svg_dict, hr, Except.bind]
  · intro s hs
    simp [decompress_svg_dict, hs]

/-- Witness for C7's theorem on a record holding an uncompressed string. -/
theorem decompress_svg_dict_idempotent_witness :
    (SVGRecord.mk "n" none none (some (.inl "s")) none).svg = some (.inl "s")
    ∧ decompress_svg_dict (fun _ => "x")
        (.dict (SVGRecord.mk "n" none none (some (.inl "s")) none))
      = .ok (.dict (SVGRecord.mk "n" none none (some (.inl "s")) none)) :=
  ⟨rfl, (decompress_svg_dict_idempotent (fun _ => "x")
    (SVGRecord.mk "n" none none (some (.inl "s")) none)).2 "s" rfl⟩

/-- C8: a non-mapping argument makes decompress_svg_dict fail with the
explicit invalid-argument ValueError, before any deeper processing. -/
theorem decompress_svg_dict_rejects_non_dict (dec : List ℕ → String) (v : PyVal)
    (h : ∀ r : SVGRecord, v ≠ .dict r) :
    decompress_svg_dict dec v
      = .error (.valueError "Parameter svg_dict must be an instance of dict") := by
  cases v with
  | dict r => exact absurd rfl (h r)
  | str s => rfl
  | num n => rfl
  | pyNone => rfl

/-- Witness for C8's theorem on a plain string argument. -/
theorem decompress_svg_dict_rejects_non_dict_witness :
    decompress_svg_dict (fun _ => "x") (.str "plot")
      = .error (.valueError "Parameter svg_dict must be an instance of dict") :=
  decompress_svg_dict_rejects_non_dict (fun _ => "x") (.str "plot")
    (fun _ hr => PyVal.noConfusion hr)

/-- C9: when rasterization succeeds, to_png returns exactly the string
img-tag prefix, the base64 encoding of the PNG bytes, and the closing
quote-bracket - so the result always starts with the documented prefix
and ends with the two closing characters. -/
theorem to_png_image_tag (raster : String → ℤ → Except PyErr (List ℕ))
    (content : String) (dpi : ℤ) (png : List ℕ) (h : raster content dpi = .ok png) :
    to_png raster content dpi
      = .ok ("<img src=\"data:image/png;base64," ++ b64encode png ++ "\">")
    ∧ "<img src=\"data:image/png;base64,".data
        <+: ("<img src=\"data:image/png;base64," ++ b64encode png ++ "\">").data
    ∧ "\">".data
        <:+ ("<img src=\"data:image/png;base64," ++ b64encode png ++ "\">").data := by
  have e : (("<img src=\"data:image/png;base64," ++ b64encode png) ++ "\">").data
      = ("<img src=\"data:image/png;base64,".data ++ (b64encode png).data)
        ++ "\">".data := rfl
  refine ⟨?_, ?_, ?_⟩
  · simp only [to_png, h, bind, Except.bind, pure, Except.pure]
  · rw [e, List.append_assoc]
    exact List.prefix_append _ _
  · rw [e]
    exact List.suffix_append _ _

/-- Witness for C9's theorem with a rasterizer returning the four PNG
magic bytes. -/
theorem to_png_image_tag_witness :
    (to_png (fun _ _ => .ok [137, 80, 78, 71]) "<svg/>" 96
      = .ok ("<img src=\"data:image/png;base64," ++ b64encode [137, 80, 78, 71] ++ "\">")
    ∧ "<img src=\"data:image/png;base64,".data
        <+: ("<img src=\"data:image/png;base64," ++ b64encode [137, 80, 78, 71] ++ "\">").data
    ∧ "\">".data
        <:+ ("<img src=\"data:image/png;base64," ++ b64encode [137, 80, 78, 71] ++ "\">").data)
    ∧ b64encode [137, 80, 78, 71] = "iVBORw==" :=
  ⟨to_png_image_tag (fun _ _ => .ok [137, 80, 78, 71]) "<svg/>" 96 [137, 80, 78, 71] rfl,
    by decide⟩

end AmpelPlot
